import Mathlib

/-!
Verification of the panel-layout core of `mplfinance/_panels.py`.

The Python module is shallowly embedded below: the config dict becomes a
`Config` structure, the panels DataFrame becomes a `List PanelRow`, Python
exceptions become the `PanelErr` inductive (with `pyKind` giving the Python
exception class and `pyMsg` the exception message), and `_build_panels` /
`_set_ticks_on_bottom_panel_only` become `Except`-valued functions.
Numbers in the ratio/height/lift computation are modelled as exact rationals.
-/

/-- Python exception classes raised by the code in `_panels.py`. -/
inductive PyExc
| valueError
| typeError
| indexError
| zeroDivisionError
deriving DecidableEq, Repr

/-- A value supplied for an addplot dict's `panel` key: a Python int or a string
(the legacy aliases `"main"`, `"lower"`, `"A"`, `"B"`, `"C"` are strings). -/
inductive PanelRef
| pint (n : Int)
| pstr (s : String)
deriving DecidableEq, Repr

/-- An addplot dict; `_build_panels` reads only its `panel` key. -/
structure APDict where
  panel : PanelRef
deriving DecidableEq, Repr

/-- The `addplot` config value: `None`, a single dict, a list of dicts, or any
other value (whose Python type name is kept for the TypeError message). -/
inductive Addplot
| noneV
| single (d : APDict)
| listV (ds : List APDict)
| other (tname : String)
deriving DecidableEq, Repr

/-- The exceptions `_build_panels` can raise, each carrying the data that the
source code interpolates into the exception message (see `pyMsg`).  Note that
`numPanelsErr` carries the value the source actually prints at line 105, which
is `volume_panel`, not `num_panels`. -/
inductive PanelErr
| mainPanelErr (v : Int)
| addplotTypeErr (tname : String)
| addplotPanelErr (v : PanelRef)
| volumePanelErr (v : Int)
| missingPanelsErr (missing : List Int)
| numPanelsErr (shown : Int)
| ratiosLenErr (lenRatios numPanels : Nat)
| indexErr
| zeroDivErr
deriving DecidableEq, Repr

/-- Python exception class of each error (`ValueError`, `TypeError`,
`IndexError`, `ZeroDivisionError`). -/
def pyKind : PanelErr → PyExc
| .mainPanelErr _ => .valueError
| .addplotTypeErr _ => .typeError
| .addplotPanelErr _ => .valueError
| .volumePanelErr _ => .valueError
| .missingPanelsErr _ => .valueError
| .numPanelsErr _ => .valueError
| .ratiosLenErr _ _ => .valueError
| .indexErr => .indexError
| .zeroDivErr => .zeroDivisionError

/-- Python `str` of a panel reference (ints print as their digits, strings as-is). -/
def pyStrRef : PanelRef → String
| .pint n => toString n
| .pstr s => s

/-- Python `str` of a list of ints, e.g. `[1, 2]`. -/
def pyStrIntList (l : List Int) : String :=
  "[" ++ String.intercalate ", " (l.map toString) ++ "]"

/-- The exception messages exactly as built by the source. -/
def pyMsg : PanelErr → String
| .mainPanelErr v => "main_panel id must be integer 0 to 9, but is " ++ toString v
| .addplotTypeErr tname => "addplot must be `dict`, or `list of dict`, NOT " ++ tname
| .addplotPanelErr v => "addplot panel must be integer 0 to 9, but is \"" ++ pyStrRef v ++ "\""
| .volumePanelErr v => "volume_panel must be integer 0 to 9, but is \"" ++ toString v ++ "\""
| .missingPanelsErr missing => "inferred panel list is missing panels: " ++ pyStrIntList missing
| .numPanelsErr shown => "num_panels must be integer 1 to 10, but is \"" ++ toString shown ++ "\""
| .ratiosLenErr lr np =>
    "len(panel_ratios) must be 2, or must be same as number of panels" ++ "\n" ++
    "len(panel_ratios)=" ++ toString lr ++ "  num panels=" ++ toString np
| .indexErr => "list assignment index out of range"
| .zeroDivErr => "division by zero"

/-- The configuration items `_build_panels` reads from its `config` dict. -/
structure Config where
  num_panels : Option Int
  addplot : Addplot
  volume : Bool
  volume_panel : Int
  main_panel : Int
  panel_ratios : Option (List ℚ)
  saxbelow : Bool
deriving DecidableEq, Repr

/-- Modelled from the spec: `_valid_panel_id` is imported from
`mplfinance._arg_validators`, which is not under `src/`; per the spec a panel
id is valid when it is an integer 0 through 9. -/
def _valid_panel_id (p : Int) : Bool :=
  decide (0 ≤ p) && decide (p ≤ 9)

/-- The `backwards_panel_compatibility` dict of source line 81. -/
def backwards_panel_compatibility (s : String) : Option Int :=
  if s = "main" then some 0
  else if s = "lower" then some 1
  else if s = "A" then some 0
  else if s = "B" then some 1
  else if s = "C" then some 2
  else none

/-- Source lines 84-88: map a panel reference through the legacy-alias dict and
validate that the result is an integer 0 through 9. -/
def normalize_panel (r : PanelRef) : Except PanelErr Int :=
  let r2 := match r with
    | .pstr s =>
      match backwards_panel_compatibility s with
      | some n => PanelRef.pint n
      | none => PanelRef.pstr s
    | .pint n => PanelRef.pint n
  match r2 with
  | .pint n => if _valid_panel_id n then .ok n else .error (.addplotPanelErr (.pint n))
  | .pstr s => .error (.addplotPanelErr (.pstr s))

/-- Source loop at lines 83-89: the panel id of each addplot dict in order,
stopping at the first invalid reference. -/
def addplot_panel_ids : List APDict → Except PanelErr (List Int)
| [] => .ok []
| d :: ds =>
  match normalize_panel d.panel with
  | .error e => .error e
  | .ok p =>
    match addplot_panel_ids ds with
    | .error e => .error e
    | .ok ps => .ok (p :: ps)

/-- Source lines 75-79: `None` contributes nothing, a single dict is promoted
to a one-element list, anything that is not a (list of) dict raises TypeError. -/
def addplot_refs : Addplot → Except PanelErr (List Int)
| .noneV => .ok []
| .single d => addplot_panel_ids [d]
| .listV ds => addplot_panel_ids ds
| .other tname => .error (.addplotTypeErr tname)

/-- Python `set.add` on a set represented as a duplicate-free list in insertion
order. -/
def pyInsert (s : List Int) (x : Int) : List Int :=
  if x ∈ s then s else s ++ [x]

/-- Source lines 74-96: the candidate panel-id set in inferred mode — `{0}`,
then every validated addplot reference, then `volume_panel` when volume is
enabled, then `main_panel`. -/
def inferred_candidates (cfg : Config) : Except PanelErr (List Int) :=
  match addplot_refs cfg.addplot with
  | .error e => .error e
  | .ok aps =>
    let pset0 := aps.foldl pyInsert [0]
    if cfg.volume then
      if _valid_panel_id cfg.volume_panel then
        .ok (pyInsert (pyInsert pset0 cfg.volume_panel) cfg.main_panel)
      else .error (.volumePanelErr cfg.volume_panel)
    else .ok (pyInsert pset0 cfg.main_panel)

/-- Source line 99: `[m for m in range(len(pset)) if m not in pset]`. -/
def missing_panels (pset : List Int) : List Int :=
  ((List.range pset.length).filter
    (fun m : Nat => decide (¬ (Int.ofNat m) ∈ pset))).map Int.ofNat

/-- Source lines 70-106: validate `main_panel`, then either infer the sorted
panel-id set (raising when it is not gap-free) or take `0..num_panels-1` after
validating the explicit count. -/
def resolve_pset (cfg : Config) : Except PanelErr (List Int) :=
  if _valid_panel_id cfg.main_panel then
    match cfg.num_panels with
    | none =>
      match inferred_candidates cfg with
      | .error e => .error e
      | .ok cand =>
        let pset := List.insertionSort (fun a b => a ≤ b) cand
        let missing := missing_panels pset
        if missing = [] then .ok pset else .error (.missingPanelsErr missing)
    | some np =>
      if 1 ≤ np ∧ np ≤ 10 then .ok ((List.range np.toNat).map Int.ofNat)
      else .error (.numPanelsErr cfg.volume_panel)
  else .error (.mainPanelErr cfg.main_panel)

/-- Python list item assignment `l[i] = v`, raising IndexError when the index
is out of range (the indices used here are already-validated non-negative
panel ids, so negative Python indices never arise). -/
def pySetItem (l : List ℚ) (i : Nat) (v : ℚ) : Except PanelErr (List ℚ) :=
  if i < l.length then .ok (l.set i v) else .error .indexErr

/-- Source lines 122-136: resolve the `panel_ratios` config value into one
relative size per panel. `n` is the number of panels, `main_panel` the
(validated, hence non-negative) main panel id. -/
def resolve_pratios (panel_ratios : Option (List ℚ)) (n : Nat) (main_panel : Nat) :
    Except PanelErr (List ℚ) :=
  match panel_ratios with
  | some pr =>
    if pr.length ≠ n ∧ ¬ (pr.length = 2 ∧ 2 < n) then
      .error (.ratiosLenErr pr.length n)
    else if pr.length = 2 ∧ 2 < n then
      pySetItem (List.replicate n (pr.getD 1 0)) main_panel (pr.getD 0 0)
    else .ok pr
  | none => pySetItem (List.replicate n 2) main_panel 5

/-- A tick-label formatter object (opaque to this module; only its identity
matters). -/
structure TickFormatter where
  fid : Nat
deriving DecidableEq, Repr

/-- The state of a drawing surface (matplotlib Axes), as far as `_panels.py`
touches it.  `labelbottom` is `true` by default (matplotlib shows x tick
labels on a fresh Axes). -/
structure AxState where
  sharex0 : Bool
  gridOn : Bool
  axisbelow : Bool
  xrot : Option ℚ
  xformatter : Option TickFormatter
  labelbottom : Bool
deriving DecidableEq, Repr

/-- One row of the panels DataFrame. -/
structure PanelRow where
  panid : Nat
  ax0 : AxState
  ax1 : AxState
  relsize : ℚ
  height : ℚ
  lift : ℚ
  used2nd : Bool
  title : Option String
  y_on_right : Option Bool
deriving DecidableEq, Repr

/-- Source lines 108-169: the rows of the panels DataFrame.  On every success
path of `resolve_pset` the index is `0..n-1`, so rows are built positionally.
Heights follow line 150 (`0.7 * size / psum`), lifts follow line 156 (the sum
of the heights of all higher-id panels), and the Axes pair follows lines
158-169 (`sharex` with panel 0, twin with grid off, `set_axisbelow` when
`saxbelow` is set or the panel is the volume panel). -/
def mkRow (pratios : List ℚ) (volume_panel : Int) (saxbelow : Bool) (panid : Nat)
    (size : ℚ) : PanelRow :=
  let psum := pratios.sum
  let heights := pratios.map (fun sz => 7/10 * sz / psum)
  { panid := panid
    ax0 := { sharex0 := panid != 0
             gridOn := false
             axisbelow := saxbelow || ((panid : Int) == volume_panel)
             xrot := none
             xformatter := none
             labelbottom := true }
    ax1 := { sharex0 := false
             gridOn := false
             axisbelow := false
             xrot := none
             xformatter := none
             labelbottom := true }
    relsize := size
    height := 7/10 * size / psum
    lift := (heights.drop (panid + 1)).sum
    used2nd := false
    title := none
    y_on_right := none }

/-- All rows of the panels DataFrame, one `mkRow` per (panel id, relative size)
pair. -/
def mkRows (pratios : List ℚ) (volume_panel : Int) (saxbelow : Bool) : List PanelRow :=
  pratios.enum.map (fun p => mkRow pratios volume_panel saxbelow p.1 p.2)

/-- Embedding of `_build_panels` (source lines 62-171): resolve the panel set,
resolve the relative sizes, then build the panel table; a zero ratio sum
raises ZeroDivisionError at line 150. -/
def _build_panels (cfg : Config) : Except PanelErr (List PanelRow) :=
  match resolve_pset cfg with
  | .error e => .error e
  | .ok pset =>
    match resolve_pratios cfg.panel_ratios pset.length cfg.main_panel.toNat with
    | .error e => .error e
    | .ok pratios =>
      if pratios.sum = 0 then .error .zeroDivErr
      else .ok (mkRows pratios cfg.volume_panel cfg.saxbelow)

/-- Source line 184: `tick_params(axis='x',labelbottom=False)` on a panel's
primary surface. -/
def hide_xlabels (r : PanelRow) : PanelRow :=
  { r with ax0 := { r.ax0 with labelbottom := false } }

/-- Source lines 178-179: tick rotation and major formatter on a panel's
primary surface. -/
def apply_bottom_ticks (f : TickFormatter) (rot : ℚ) (r : PanelRow) : PanelRow :=
  { r with ax0 := { r.ax0 with xrot := some rot, xformatter := some f } }

/-- Embedding of `_set_ticks_on_bottom_panel_only` (source lines 174-184):
format the bottommost (last) panel's primary x axis and suppress x tick labels
on every other panel's primary surface; an empty table raises IndexError at
line 176.  The Python default for the rotation argument is 45. -/
def _set_ticks_on_bottom_panel_only (panels : List PanelRow) (f : TickFormatter)
    (rot : ℚ) : Except PanelErr (List PanelRow) :=
  match panels.getLast? with
  | none => .error .indexErr
  | some bot => .ok (panels.dropLast.map hide_xlabels ++ [apply_bottom_ticks f rot bot])

/-- The spec's gap-free condition on the candidate panel-id set: every integer
from 0 to (size of the set) - 1 is present.  (Stated on the candidate list,
which holds the set's elements without duplicates.) -/
def gap_free_from_zero (cand : List Int) : Prop :=
  ∀ k : Nat, k < cand.length → (k : Int) ∈ cand

/-! ## Helper lemmas -/

theorem enumFrom_map_snd_comp {α β : Type} (g : α → β) (k : Nat) (l : List α) :
    (List.enumFrom k l).map (fun p => g p.2) = l.map g := by
  induction l generalizing k with
  | nil => rfl
  | cons a t ih => simp only [List.enumFrom, List.map_cons, List.map, ih]

theorem mkRows_length (pr : List ℚ) (v : Int) (s : Bool) :
    (mkRows pr v s).length = pr.length := by
  simp [mkRows]

theorem mkRows_getElem (pr : List ℚ) (v : Int) (s : Bool) (i : Nat)
    (h : i < (mkRows pr v s).length) (h2 : i < pr.length) :
    (mkRows pr v s).get ⟨i, h⟩ = mkRow pr v s i (pr.get ⟨i, h2⟩) := by
  simp [mkRows]

theorem mkRows_map_relsize (pr : List ℚ) (v : Int) (s : Bool) :
    (mkRows pr v s).map (fun r => r.relsize) = pr := by
  have aux : ∀ (k : Nat) (l : List ℚ),
      (((List.enumFrom k l).map (fun p => mkRow pr v s p.1 p.2)).map (fun r => r.relsize)) = l := by
    intro k l
    induction l generalizing k with
    | nil => rfl
    | cons a t ih =>
      simp only [List.enumFrom, List.map_cons]
      rw [ih]
      simp [mkRow]
  simpa [mkRows, List.enum] using aux 0 pr

theorem mkRows_map_height (pr : List ℚ) (v : Int) (s : Bool) :
    (mkRows pr v s).map (fun r => r.height) = pr.map (fun sz => 7/10 * sz / pr.sum) := by
  have aux : ∀ (k : Nat) (l : List ℚ),
      (((List.enumFrom k l).map (fun p => mkRow pr v s p.1 p.2)).map (fun r => r.height))
        = l.map (fun sz => 7/10 * sz / pr.sum) := by
    intro k l
    induction l generalizing k with
    | nil => rfl
    | cons a t ih =>
      simp only [List.enumFrom, List.map_cons]
      rw [ih]
      simp [mkRow]
  simpa [mkRows, List.enum] using aux 0 pr

theorem sum_map_mul_div (pr : List ℚ) (S : ℚ) :
    (pr.map (fun r => 7/10 * r / S)).sum = 7/10 * pr.sum / S := by
  induction pr with
  | nil => simp
  | cons a t ih =>
    simp only [List.map_cons, List.sum_cons, ih]
    ring

theorem build_ok_iff (cfg : Config) (rows : List PanelRow) :
    _build_panels cfg = .ok rows ↔
      ∃ pset pratios, resolve_pset cfg = .ok pset ∧
        resolve_pratios cfg.panel_ratios pset.length cfg.main_panel.toNat = .ok pratios ∧
        ¬ pratios.sum = 0 ∧ rows = mkRows pratios cfg.volume_panel cfg.saxbelow := by
  unfold _build_panels
  cases h1 : resolve_pset cfg with
  | error e => simp [h1]
  | ok pset =>
    cases h2 : resolve_pratios cfg.panel_ratios pset.length cfg.main_panel.toNat with
    | error e => simp [h2]
    | ok pratios =>
      by_cases h3 : pratios.sum = 0
      · simp [h2, h3]
      · simp [h1, h2, h3, eq_comm]

/-! ## Claim C2 -/

/-- C2: for every successfully built panel table with relative sizes
`r_0..r_{n-1}` and `S = Σ r_i`, each panel's height equals `0.7 * r_i / S`,
and the sum of all panel heights equals exactly `0.7` over the rationals. -/
theorem spec_C2_heights_sum (cfg : Config) (rows : List PanelRow)
    (h : _build_panels cfg = .ok rows) :
    (∀ i (hi : i < rows.length),
        (rows.get ⟨i, hi⟩).height
          = 7/10 * (rows.get ⟨i, hi⟩).relsize / ((rows.map (fun r => r.relsize)).sum)) ∧
    ((rows.map (fun r => r.height)).sum = 7/10) := by
  obtain ⟨pset, pratios, hp, hr, hs, rfl⟩ := (build_ok_iff cfg rows).mp h
  constructor
  · intro i hi
    have h2 : i < pratios.length := by simpa [mkRows_length] using hi
    rw [mkRows_getElem _ _ _ i hi h2, mkRows_map_relsize]
    simp [mkRow]
  · rw [mkRows_map_height, sum_map_mul_div, mul_div_assoc, div_self hs, mul_one]

def cfgC2 : Config :=
  { num_panels := some 1, addplot := .noneV, volume := false,
    volume_panel := 1, main_panel := 0, panel_ratios := none, saxbelow := false }

def rowsC2 : List PanelRow :=
  [{ panid := 0
     ax0 := { sharex0 := false, gridOn := false, axisbelow := false,
              xrot := none, xformatter := none, labelbottom := true }
     ax1 := { sharex0 := false, gridOn := false, axisbelow := false,
              xrot := none, xformatter := none, labelbottom := true }
     relsize := 5, height := 7/10, lift := 0, used2nd := false,
     title := none, y_on_right := none }]

theorem spec_C2_heights_sum_witness :
    _build_panels cfgC2 = .ok rowsC2 ∧ ((rowsC2.map (fun r => r.height)).sum = 7/10) :=
  ⟨by with_unfolding_all rfl,
   (spec_C2_heights_sum cfgC2 rowsC2 (by with_unfolding_all rfl)).2⟩

/-! ## Claim C3 -/

theorem mkRows_lift (pr : List ℚ) (v : Int) (s : Bool) (i : Nat)
    (hi : i < (mkRows pr v s).length) :
    ((mkRows pr v s).get ⟨i, hi⟩).lift
      = ((pr.map (fun sz => 7/10 * sz / pr.sum)).drop (i + 1)).sum := by
  have h2 : i < pr.length := by simpa [mkRows_length] using hi
  rw [mkRows_getElem _ _ _ i hi h2]
  simp [mkRow]

/-- C3 (amended): in every successfully built panel table, each panel's lift
equals the sum of the heights of all panels with strictly greater id, and the
bottommost panel's lift is 0; lifts are monotonically non-increasing provided
every relative size is non-negative (the code never validates ratio signs, so
a negative `panel_ratios` entry can produce an increasing lift — see the
counterexample). -/
theorem spec_C3_lifts (cfg : Config) (rows : List PanelRow)
    (h : _build_panels cfg = .ok rows) :
    (∀ i (hi : i < rows.length),
        (rows.get ⟨i, hi⟩).lift = ((rows.map (fun r => r.height)).drop (i + 1)).sum) ∧
    (∀ r, rows.getLast? = some r → r.lift = 0) ∧
    ((∀ r ∈ rows, 0 ≤ r.relsize) →
      ∀ i (hi : i + 1 < rows.length),
        (rows.get ⟨i + 1, hi⟩).lift ≤ (rows.get ⟨i, Nat.lt_of_succ_lt hi⟩).lift) := by
  obtain ⟨pset, pratios, hp, hr, hs, rfl⟩ := (build_ok_iff cfg rows).mp h
  set rows := mkRows pratios cfg.volume_panel cfg.saxbelow with hrows
  have hlenrows : rows.length = pratios.length := mkRows_length _ _ _
  have hlenh : (pratios.map (fun sz => 7/10 * sz / pratios.sum)).length = rows.length := by
    simp [hlenrows]
  refine ⟨?_, ?_, ?_⟩
  · intro i hi
    rw [mkRows_lift pratios cfg.volume_panel cfg.saxbelow i hi, hrows, mkRows_map_height]
  · intro r hlast
    have hne : rows ≠ [] := by
      intro hemp
      rw [hemp] at hlast
      cases hlast
    have hlen : 0 < rows.length := List.length_pos.mpr hne
    rw [List.getLast?_eq_getElem? rows, List.getElem?_eq_getElem (by omega)] at hlast
    have hr2 := (Option.some.injEq _ _).mp hlast
    rw [← hr2]
    have hb : rows.length - 1 < rows.length := by omega
    have hl := mkRows_lift pratios cfg.volume_panel cfg.saxbelow (rows.length - 1)
      (by rw [← hrows]; exact hb)
    simp only [List.get_eq_getElem, ← hrows] at hl
    rw [hl, List.drop_eq_nil_of_le (by omega), List.sum_nil]
  · intro hnn i hi
    have hnn' : ∀ x ∈ pratios, (0:ℚ) ≤ x := by
      intro x hx
      have hx2 : x ∈ rows.map (fun r => r.relsize) := by
        rw [hrows, mkRows_map_relsize]
        exact hx
      rcases List.mem_map.mp hx2 with ⟨r, hrmem, hre⟩
      exact hre ▸ hnn r hrmem
    have hpos : 0 < pratios.sum := lt_of_le_of_ne (List.sum_nonneg hnn') (Ne.symm hs)
    have hhnn : ∀ x ∈ pratios.map (fun sz => 7/10 * sz / pratios.sum), (0:ℚ) ≤ x := by
      intro x hx
      rcases List.mem_map.mp hx with ⟨sz, hszmem, hsze⟩
      rw [← hsze]
      exact div_nonneg (mul_nonneg (by norm_num) (hnn' sz hszmem)) (le_of_lt hpos)
    have hi1 : i + 1 < (pratios.map (fun sz => 7/10 * sz / pratios.sum)).length := by
      rw [hlenh]
      exact hi
    rw [mkRows_lift pratios cfg.volume_panel cfg.saxbelow (i + 1) hi,
        mkRows_lift pratios cfg.volume_panel cfg.saxbelow i (Nat.lt_of_succ_lt hi)]
    rw [List.drop_eq_getElem_cons hi1, List.sum_cons]
    have := hhnn ((pratios.map (fun sz => 7/10 * sz / pratios.sum))[i + 1])
      (List.getElem_mem hi1)
    linarith

def cfgC3 : Config :=
  { num_panels := some 3, addplot := .noneV, volume := false,
    volume_panel := 1, main_panel := 0, panel_ratios := some [5, -2, 4], saxbelow := false }

/-- C3 counterexample: with `num_panels=3` and `panel_ratios=[5,-2,4]` the
build succeeds and produces lifts `[1/5, 2/5, 0]`, so `lift_0 < lift_1` — the
lifts are not monotonically non-increasing as the claim states. -/
theorem spec_C3_counterexample :
    (_build_panels cfgC3).map (fun rows => rows.map (fun r => r.lift)) = .ok [1/5, 2/5, 0] ∧
    ¬ ((2:ℚ)/5 ≤ 1/5) := by
  constructor
  · with_unfolding_all rfl
  · with_unfolding_all decide

def cfgC3w : Config :=
  { num_panels := some 2, addplot := .noneV, volume := false,
    volume_panel := 1, main_panel := 0, panel_ratios := none, saxbelow := false }

def rowsC3w : List PanelRow :=
  [{ panid := 0
     ax0 := { sharex0 := false, gridOn := false, axisbelow := false,
              xrot := none, xformatter := none, labelbottom := true }
     ax1 := { sharex0 := false, gridOn := false, axisbelow := false,
              xrot := none, xformatter := none, labelbottom := true }
     relsize := 5, height := 1/2, lift := 1/5, used2nd := false,
     title := none, y_on_right := none },
   { panid := 1
     ax0 := { sharex0 := true, gridOn := false, axisbelow := true,
              xrot := none, xformatter := none, labelbottom := true }
     ax1 := { sharex0 := false, gridOn := false, axisbelow := false,
              xrot := none, xformatter := none, labelbottom := true }
     relsize := 2, height := 1/5, lift := 0, used2nd := false,
     title := none, y_on_right := none }]

theorem spec_C3_lifts_witness :
    rowsC3w.getLast? = some (rowsC3w.get ⟨1, by decide⟩) ∧
    (rowsC3w.get ⟨1, by decide⟩).lift = 0 ∧
    (rowsC3w.get ⟨0 + 1, by decide⟩).lift ≤ (rowsC3w.get ⟨0, by decide⟩).lift := by
  refine ⟨by with_unfolding_all rfl, ?_, ?_⟩
  · exact (spec_C3_lifts cfgC3w rowsC3w (by with_unfolding_all rfl)).2.1
      (rowsC3w.get ⟨1, by decide⟩) (by with_unfolding_all rfl)
  · exact (spec_C3_lifts cfgC3w rowsC3w (by with_unfolding_all rfl)).2.2
      (by with_unfolding_all decide) 0 (by decide)

/-! ## Claim C4 -/

def cfgC4 : Config :=
  { num_panels := some 3, addplot := .noneV, volume := false,
    volume_panel := 1, main_panel := 0, panel_ratios := none, saxbelow := false }

/-- C4 (amended): when `panel_ratios` is absent every panel's relative size is
2 except the main panel, which gets 5; for a set of three panels with
`main_panel=0` the ratios are `[5,2,2]` — but the heights are
`[7/18, 7/45, 7/45]` (approximately `[0.389, 0.156, 0.156]`), since they are
`0.7 * r_i / 9`, not `[0.35, 0.14, 0.14]`. -/
theorem spec_C4_default_ratios :
    (∀ (n m : Nat), m < n →
        resolve_pratios none n m = .ok ((List.replicate n 2).set m 5)) ∧
    ((_build_panels cfgC4).map (fun rows => rows.map (fun r => r.relsize)) = .ok [5, 2, 2]) ∧
    ((_build_panels cfgC4).map (fun rows => rows.map (fun r => r.height))
        = .ok [7/18, 7/45, 7/45]) := by
  refine ⟨?_, ?_, ?_⟩
  · intro n m hm
    unfold resolve_pratios pySetItem
    rw [if_pos]
    simpa using hm
  · with_unfolding_all rfl
  · with_unfolding_all rfl

/-- C4 counterexample: for the panel set `{0,1,2}` with `main_panel=0` and no
`panel_ratios`, the heights are `[7/18, 7/45, 7/45]`, which differs from the
claimed `[0.35, 0.14, 0.14]` (the ratio sum is 9, not 10). -/
theorem spec_C4_counterexample :
    (_build_panels cfgC4).map (fun rows => rows.map (fun r => r.height))
        = .ok [7/18, 7/45, 7/45] ∧
    ([7/18, 7/45, 7/45] : List ℚ) ≠ [35/100, 14/100, 14/100] := by
  constructor
  · with_unfolding_all rfl
  · with_unfolding_all decide

theorem spec_C4_default_ratios_witness :
    resolve_pratios none 3 0 = .ok ((List.replicate 3 2).set 0 5) ∧
    ((List.replicate 3 2).set 0 5 : List ℚ) = [5, 2, 2] :=
  ⟨(spec_C4_default_ratios).1 3 0 (by decide), by with_unfolding_all rfl⟩

/-! ## Claim C5 -/

/-- C5: ratio resolution — when `panel_ratios` has length 2 and the panel
count exceeds 2, element 0 becomes the main panel's relative size and element
1 every other panel's; when its length equals the panel count (including the
ambiguous case of exactly 2 panels with a length-2 list) the values are used
directly in panel-id order, so the equal-length rule takes priority. -/
theorem spec_C5_ratio_resolution :
    (∀ (pr : List ℚ) (n m : Nat), pr.length = 2 → 2 < n → m < n →
        resolve_pratios (some pr) n m
          = .ok ((List.replicate n (pr.getD 1 0)).set m (pr.getD 0 0))) ∧
    (∀ (pr : List ℚ) (n m : Nat), pr.length = n →
        resolve_pratios (some pr) n m = .ok pr) := by
  constructor
  · intro pr n m h2 hn hm
    simp only [resolve_pratios, pySetItem]
    rw [if_neg (by omega), if_pos ⟨h2, hn⟩,
        if_pos (by rw [List.length_replicate]; exact hm)]
  · intro pr n m hlen
    simp only [resolve_pratios]
    rw [if_neg (by omega), if_neg (by omega)]

/-- Witness for C5: `[6,1]` with 4 panels and `main_panel=0` resolves to
`[6,1,1,1]`; `[3,4]` with exactly 2 panels resolves to `[3,4]` directly. -/
theorem spec_C5_ratio_resolution_witness :
    resolve_pratios (some [6, 1]) 4 0 = .ok [6, 1, 1, 1] ∧
    resolve_pratios (some [3, 4]) 2 1 = .ok [3, 4] := by
  constructor
  · have h := spec_C5_ratio_resolution.1 [6, 1] 4 0 (by decide) (by decide) (by decide)
    rw [h]
    with_unfolding_all rfl
  · exact spec_C5_ratio_resolution.2 [3, 4] 2 1 (by decide)

/-! ## Claim C6 -/

def cfgC6 : Config :=
  { num_panels := some 3, addplot := .listV [{ panel := .pint 7 }], volume := false,
    volume_panel := 1, main_panel := 0, panel_ratios := none, saxbelow := false }

/-- C6: with an explicit `num_panels` the value must be an integer in `[1,10]`
(else a ValueError), the panel set is exactly `0..num_panels-1`, and all
inference from `addplot`/`volume`/`main_panel` is skipped — in particular
`num_panels=3` with `addplot=[dict(panel=7)]` raises no error. -/
theorem spec_C6_explicit_num_panels :
    (∀ (cfg : Config) (np : Int), cfg.num_panels = some np →
        _valid_panel_id cfg.main_panel = true → (np < 1 ∨ 10 < np) →
        _build_panels cfg = .error (.numPanelsErr cfg.volume_panel) ∧
          pyKind (.numPanelsErr cfg.volume_panel) = .valueError) ∧
    (∀ (cfg : Config) (np : Int), cfg.num_panels = some np →
        _valid_panel_id cfg.main_panel = true → 1 ≤ np → np ≤ 10 →
        resolve_pset cfg = .ok ((List.range np.toNat).map Int.ofNat)) ∧
    ((_build_panels cfgC6).isOk = true) := by
  refine ⟨?_, ?_, by with_unfolding_all rfl⟩
  · intro cfg np hnum hmain hout
    have hps : resolve_pset cfg = .error (.numPanelsErr cfg.volume_panel) := by
      simp only [resolve_pset, hmain, hnum, if_true]
      rw [if_neg (by omega)]
    constructor
    · simp [_build_panels, hps]
    · rfl
  · intro cfg np hnum hmain hlo hhi
    simp only [resolve_pset, hmain, hnum, if_true]
    rw [if_pos ⟨hlo, hhi⟩]

def cfgC6bad : Config :=
  { num_panels := some 0, addplot := .noneV, volume := false,
    volume_panel := 7, main_panel := 0, panel_ratios := none, saxbelow := false }

theorem spec_C6_explicit_num_panels_witness :
    _build_panels cfgC6bad = .error (.numPanelsErr 7) ∧
    resolve_pset cfgC6 = .ok [0, 1, 2] := by
  constructor
  · exact ((spec_C6_explicit_num_panels).1 cfgC6bad 0 rfl (by decide) (Or.inl (by decide))).1
  · have h := (spec_C6_explicit_num_panels).2.1 cfgC6 3 rfl (by decide) (by decide) (by decide)
    exact h.trans (by with_unfolding_all rfl)

/-! ## Claim C7 -/

def cfgC7 : Config :=
  { num_panels := some 1, addplot := .noneV, volume := false,
    volume_panel := 1, main_panel := 0, panel_ratios := some [6, 1], saxbelow := false }

def cfgC7none : Config :=
  { num_panels := some 1, addplot := .noneV, volume := false,
    volume_panel := 1, main_panel := 0, panel_ratios := none, saxbelow := false }

/-- C7: evaluation at the failing input — with a single panel the code does
NOT ignore a supplied `panel_ratios`: a length-2 list raises the
length-mismatch ValueError (`len(panel_ratios)=2  num panels=1`), although
the function's own docstring says "If the number of panels == 1, the
panel_ratios is ignored"; with `panel_ratios` absent the single panel does
get the full height 0.7. -/
theorem spec_C7_single_panel_ratio_error :
    _build_panels cfgC7 = .error (.ratiosLenErr 2 1) ∧
    pyKind (.ratiosLenErr 2 1) = .valueError ∧
    (_build_panels cfgC7none).map (fun rows => rows.map (fun r => r.height)) = .ok [7/10] := by
  refine ⟨by with_unfolding_all rfl, rfl, by with_unfolding_all rfl⟩

/-! ## Claim C8 -/

def cfgC8 : Config :=
  { num_panels := some 0, addplot := .noneV, volume := false,
    volume_panel := 1, main_panel := 0, panel_ratios := none, saxbelow := false }

/-- C8: evaluation at the failing input — for the invalid `num_panels=0` (with
`volume_panel=1`) the raised ValueError's message interpolates
`str(volume_panel)`, i.e. `"1"`, and not the offending `num_panels` value
`"0"` as the claim (and the message's own prefix) requires. -/
theorem spec_C8_wrong_value_in_message :
    _build_panels cfgC8 = .error (.numPanelsErr 1) ∧
    cfgC8.num_panels = some 0 ∧
    pyMsg (.numPanelsErr 1) = "num_panels must be integer 1 to 10, but is \"1\"" ∧
    pyMsg (.numPanelsErr 1) ≠ "num_panels must be integer 1 to 10, but is \"0\"" := by
  refine ⟨by with_unfolding_all rfl, rfl, by with_unfolding_all rfl,
    by with_unfolding_all decide⟩

/-! ## Claim C10 -/

/-- C10: with an explicit `num_panels` in `[1,10]`, a valid `main_panel` with
`main_panel ≥ num_panels`, and `panel_ratios` either absent or of length 2
with `num_panels > 2`, `_build_panels` fails with IndexError (from the write
`pratios[main_panel]` into a list of length `num_panels`), not with any of
the documented validation errors — `main_panel` is never checked against the
explicit panel count. -/
theorem spec_C10_main_panel_index_error (cfg : Config) (np : Int)
    (h1 : cfg.num_panels = some np) (h2 : 1 ≤ np) (h3 : np ≤ 10)
    (h4 : _valid_panel_id cfg.main_panel = true) (h5 : np ≤ cfg.main_panel)
    (h6 : cfg.panel_ratios = none ∨
          ∃ pr, cfg.panel_ratios = some pr ∧ pr.length = 2 ∧ 2 < np) :
    _build_panels cfg = .error PanelErr.indexErr := by
  have hps : resolve_pset cfg = .ok ((List.range np.toNat).map Int.ofNat) := by
    simp only [resolve_pset, h4, h1, if_true]
    rw [if_pos ⟨h2, h3⟩]
  have hlen : ((List.range np.toNat).map Int.ofNat).length = np.toNat := by
    rw [List.length_map, List.length_range]
  have h0 : 0 ≤ cfg.main_panel := by
    unfold _valid_panel_id at h4
    simp only [Bool.and_eq_true, decide_eq_true_eq] at h4
    exact h4.1
  have hmain : ¬ (cfg.main_panel.toNat < np.toNat) := by omega
  have hpr : resolve_pratios cfg.panel_ratios np.toNat cfg.main_panel.toNat
      = .error PanelErr.indexErr := by
    rcases h6 with hnone | ⟨pr, hsome, hlen2, hgt⟩
    · rw [hnone]
      simp only [resolve_pratios, pySetItem]
      rw [if_neg (by simpa using hmain)]
    · rw [hsome]
      simp only [resolve_pratios, pySetItem]
      have hgt2 : 2 < np.toNat := by omega
      rw [if_neg (by omega), if_pos ⟨hlen2, hgt2⟩, if_neg (by simpa using hmain)]
  simp only [_build_panels, hps, hlen, hpr]

def cfgC10 : Config :=
  { num_panels := some 2, addplot := .noneV, volume := false,
    volume_panel := 1, main_panel := 5, panel_ratios := none, saxbelow := false }

theorem spec_C10_main_panel_index_error_witness :
    _build_panels cfgC10 = .error PanelErr.indexErr :=
  spec_C10_main_panel_index_error cfgC10 2 rfl (by decide) (by decide) (by decide)
    (by decide) (Or.inl rfl)

/-! ## Claim C9 -/

/-- C9: the bottom-axis tick policy applies the formatter and the rotation
angle only to the primary surface of the last (bottommost) panel, suppresses
x-axis tick labels on every other panel's primary surface (leaving them
otherwise untouched), and — when every panel entered with visible x labels,
as `_build_panels` produces them — exactly one panel of the resulting table
shows x-axis tick labels.  With a single panel nothing beyond the
formatter/rotation application happens. -/
theorem spec_C9_bottom_ticks (panels : List PanelRow) (f : TickFormatter) (rot : ℚ)
    (out : List PanelRow)
    (h : _set_ticks_on_bottom_panel_only panels f rot = .ok out) :
    (out.getLast? = (panels.getLast?).map (apply_bottom_ticks f rot)) ∧
    (∀ i (hi : i + 1 < out.length) (hp : i < panels.length),
        out.get ⟨i, Nat.lt_of_succ_lt hi⟩ = hide_xlabels (panels.get ⟨i, hp⟩)) ∧
    ((∀ r ∈ panels, r.ax0.labelbottom = true) →
        (out.filter (fun r => r.ax0.labelbottom)).length = 1) := by
  cases hlast : panels.getLast? with
  | none =>
    rw [_set_ticks_on_bottom_panel_only, hlast] at h
    cases h
  | some bot =>
    rw [_set_ticks_on_bottom_panel_only, hlast] at h
    have hout : out = panels.dropLast.map hide_xlabels ++ [apply_bottom_ticks f rot bot] := by
      cases h
      rfl
    have hne : panels ≠ [] := by
      intro hemp
      rw [hemp] at hlast
      cases hlast
    refine ⟨?_, ?_, ?_⟩
    · rw [hout]
      simp
    · intro i hi hp
      have hlen : out.length = panels.dropLast.length + 1 := by
        rw [hout]
        simp
      have hi2 : i < panels.dropLast.length := by omega
      have hi3 : i < (panels.dropLast.map hide_xlabels).length := by
        simpa using hi2
      simp only [List.get_eq_getElem, hout]
      rw [List.getElem_append_left hi3, List.getElem_map, List.getElem_dropLast]
    · intro hlb
      rw [hout, List.filter_append]
      have h1 : (panels.dropLast.map hide_xlabels).filter (fun r => r.ax0.labelbottom) = [] := by
        rw [List.filter_eq_nil_iff]
        intro a ha
        rcases List.mem_map.mp ha with ⟨r, _, hre⟩
        rw [← hre]
        simp [hide_xlabels]
      have h2 : (apply_bottom_ticks f rot bot).ax0.labelbottom = true := by
        have hmem : bot ∈ panels := List.mem_of_mem_getLast? hlast
        simpa [apply_bottom_ticks] using hlb bot hmem
      rw [h1, List.nil_append]
      simp [h2]

def rowsC9 : List PanelRow :=
  [{ panid := 0
     ax0 := { sharex0 := false, gridOn := false, axisbelow := false,
              xrot := none, xformatter := none, labelbottom := true }
     ax1 := { sharex0 := false, gridOn := false, axisbelow := false,
              xrot := none, xformatter := none, labelbottom := true }
     relsize := 5, height := 1/2, lift := 1/5, used2nd := false,
     title := none, y_on_right := none },
   { panid := 1
     ax0 := { sharex0 := true, gridOn := false, axisbelow := true,
              xrot := none, xformatter := none, labelbottom := true }
     ax1 := { sharex0 := false, gridOn := false, axisbelow := false,
              xrot := none, xformatter := none, labelbottom := true }
     relsize := 2, height := 1/5, lift := 0, used2nd := false,
     title := none, y_on_right := none }]

def outC9 : List PanelRow :=
  (rowsC9.dropLast.map hide_xlabels) ++
    [apply_bottom_ticks { fid := 0 } 45 (rowsC9.get ⟨1, by decide⟩)]

theorem spec_C9_bottom_ticks_witness :
    _set_ticks_on_bottom_panel_only rowsC9 { fid := 0 } 45 = .ok outC9 ∧
    (outC9.filter (fun r => r.ax0.labelbottom)).length = 1 :=
  ⟨by with_unfolding_all rfl,
   (spec_C9_bottom_ticks rowsC9 { fid := 0 } 45 outC9
      (by with_unfolding_all rfl)).2.2 (by with_unfolding_all decide)⟩

/-! ## Claim C1 -/

theorem missing_panels_eq_nil_iff (pset : List Int) :
    missing_panels pset = [] ↔ ∀ k : Nat, k < pset.length → (k : Int) ∈ pset := by
  simp only [missing_panels, List.map_eq_nil_iff, List.filter_eq_nil_iff, List.mem_range,
    decide_eq_true_eq, not_not, Int.ofNat_eq_coe]

theorem resolve_pratios_error_ne_missing (o : Option (List ℚ)) (n m : Nat) (e : PanelErr)
    (h : resolve_pratios o n m = .error e) : ∀ miss, e ≠ .missingPanelsErr miss := by
  intro miss hmiss
  subst hmiss
  cases o with
  | none =>
    simp only [resolve_pratios, pySetItem] at h
    split at h <;> simp_all
  | some pr =>
    simp only [resolve_pratios, pySetItem] at h
    split at h
    · simp_all
    · split at h
      · split at h <;> simp_all
      · simp_all

theorem build_after_pset_no_missing (cfg : Config) (pset : List Int) (miss : List Int)
    (hps : resolve_pset cfg = .ok pset) :
    _build_panels cfg ≠ .error (.missingPanelsErr miss) := by
  intro hb
  simp only [_build_panels, hps] at hb
  cases hre : resolve_pratios cfg.panel_ratios pset.length cfg.main_panel.toNat with
  | error e =>
    rw [hre] at hb
    simp only [Except.error.injEq] at hb
    exact resolve_pratios_error_ne_missing _ _ _ _ hre miss hb
  | ok pratios =>
    rw [hre] at hb
    split at hb
    · simp_all
    · split at hb <;> simp_all

/-- C1 (amended): in inferred mode with all panel references valid,
`_build_panels` raises the missing-panels ValueError exactly when the
candidate panel-id set (built from `{0}`, addplot references, the volume
panel when volume is enabled, and `main_panel`) is not gap-free starting at
0; the error names the ids missing from `0..len(set)-1` — so for
`main_panel=0` and `addplot=[dict(panel=3)]` it lists `[1]` (ids are checked
only up to the set's size, not up to its maximum; the originally claimed
`[1,2]` is not what the code produces — see the counterexample). -/
theorem spec_C1_gap_detection (cfg : Config) (cand : List Int)
    (h0 : cfg.num_panels = none)
    (h1 : _valid_panel_id cfg.main_panel = true)
    (h2 : inferred_candidates cfg = .ok cand) :
    ((∃ missing, _build_panels cfg = .error (.missingPanelsErr missing)) ↔
        ¬ gap_free_from_zero cand) ∧
    (∀ missing, _build_panels cfg = .error (.missingPanelsErr missing) →
        missing = missing_panels (List.insertionSort (fun a b => a ≤ b) cand)) := by
  have hperm := List.perm_insertionSort (fun a b => a ≤ b) cand
  have hlen : (List.insertionSort (fun a b => a ≤ b) cand).length = cand.length :=
    hperm.length_eq
  have hgap : missing_panels (List.insertionSort (fun a b => a ≤ b) cand) = []
      ↔ gap_free_from_zero cand := by
    rw [missing_panels_eq_nil_iff]
    unfold gap_free_from_zero
    constructor
    · intro hall k hk
      exact hperm.mem_iff.mp (hall k (by omega))
    · intro hall k hk
      exact hperm.mem_iff.mpr (hall k (by omega))
  by_cases hmp : missing_panels (List.insertionSort (fun a b => a ≤ b) cand) = []
  · have hps : resolve_pset cfg = .ok (List.insertionSort (fun a b => a ≤ b) cand) := by
      simp only [resolve_pset, h1, h0, h2, if_true]
      rw [if_pos hmp]
    constructor
    · apply iff_of_false
      · rintro ⟨miss, hb⟩
        exact build_after_pset_no_missing cfg _ miss hps hb
      · exact not_not_intro (hgap.mp hmp)
    · intro miss hb
      exact absurd hb (build_after_pset_no_missing cfg _ miss hps)
  · have hps : resolve_pset cfg
        = .error (.missingPanelsErr
            (missing_panels (List.insertionSort (fun a b => a ≤ b) cand))) := by
      simp only [resolve_pset, h1, h0, h2, if_true]
      rw [if_neg hmp]
    have hb : _build_panels cfg
        = .error (.missingPanelsErr
            (missing_panels (List.insertionSort (fun a b => a ≤ b) cand))) := by
      simp only [_build_panels, hps]
    constructor
    · apply iff_of_true
      · exact ⟨_, hb⟩
      · intro hgf
        exact hmp (hgap.mpr hgf)
    · intro miss hb2
      have heq := hb.symm.trans hb2
      simp only [Except.error.injEq, PanelErr.missingPanelsErr.injEq] at heq
      exact heq.symm

def cfgC1 : Config :=
  { num_panels := none, addplot := .listV [{ panel := .pint 3 }], volume := false,
    volume_panel := 1, main_panel := 0, panel_ratios := none, saxbelow := false }

/-- C1 counterexample: for `main_panel=0` and `addplot=[dict(panel=3)]` the
candidate set is `{0,3}` and the raised error lists missing ids `[1]` (its
message is `inferred panel list is missing panels: [1]`), not `[1,2]` as the
claim states. -/
theorem spec_C1_scenario_counterexample :
    _build_panels cfgC1 = .error (.missingPanelsErr [1]) ∧
    pyMsg (.missingPanelsErr [1]) = "inferred panel list is missing panels: [1]" ∧
    ([1] : List Int) ≠ [1, 2] := by
  refine ⟨by with_unfolding_all rfl, by with_unfolding_all rfl, by decide⟩

theorem spec_C1_gap_detection_witness :
    (∃ missing, _build_panels cfgC1 = .error (.missingPanelsErr missing)) ∧
    ¬ gap_free_from_zero [0, 3] := by
  have hng : ¬ gap_free_from_zero [0, 3] := by
    simp only [gap_free_from_zero]
    decide
  exact ⟨((spec_C1_gap_detection cfgC1 [0, 3] rfl (by decide)
    (by with_unfolding_all rfl)).1).mpr hng, hng⟩
